import Mathlib

/-!
Verification development for the Templator.js repository.

The repository holds three CLI front ends around an external Markup renderer:
src/templator.js (the simple CLI), src/unnamed/part_000 (the merged CLI) and
src/unnamed/part_001 (the enhanced CLI). The renderer itself is required from
markup.js / templator-js, which is not part of the sources; everything proved
here is about the glue the three scripts implement: context normalization,
delimiter resolution, output routing, batch processing and exit codes.

JavaScript values and conventions are embedded as follows: parsed JSON
documents become the JValue inductive, a JS object being an ordered field
list; undefined object accesses become Option; the JS expression a or-else b
on strings (where the empty string is falsy) becomes jsOr; thrown exceptions
become Except or a Bool success flag mirroring each script's catch blocks;
file-system and console side effects become explicit Effect lists in the
order the scripts perform them.
-/

namespace Templator

/-- A parsed JSON value: the context data model of all three CLIs.
Objects keep their fields as an ordered association list. -/
inductive JValue where
  | null
  | bool (b : Bool)
  | num (n : Int)
  | str (s : String)
  | arr (elems : List JValue)
  | obj (fields : List (String × JValue))

/-- Reading a field of a JS object: the first binding of the key, or none
when the property is undefined. -/
def lookupField : List (String × JValue) → String → Option JValue
  | [], _ => none
  | (k, v) :: rest, key => if k = key then some v else lookupField rest key

/-- JS assignment obj[key] = v on an object: replaces the binding when the
key is present, appends it otherwise. -/
def setField : List (String × JValue) → String → JValue → List (String × JValue)
  | [], key, v => [(key, v)]
  | (k, w) :: rest, key, v =>
    if k = key then (k, v) :: rest else (k, w) :: setField rest key v

/-- The context items normalization of templator.js lines 42-46 and
part_001 lines 142-147: an absent items field becomes the empty array, a
present non-array value is wrapped in a one-element array, an array is left
alone. -/
def normalizeItems (fields : List (String × JValue)) : List (String × JValue) :=
  match lookupField fields "items" with
  | none => setField fields "items" (JValue.arr [])
  | some (JValue.arr _) => fields
  | some v => setField fields "items" (JValue.arr [v])

/-- Whether the items field of a context object is present and is an array. -/
def itemsIsArray (fields : List (String × JValue)) : Bool :=
  match lookupField fields "items" with
  | some (JValue.arr _) => true
  | _ => false

/-- The JS expression a or-else b for an optional string: undefined and the
empty string are falsy, any other string is itself. -/
def jsOr (a : Option String) (dflt : String) : String :=
  match a with
  | none => dflt
  | some s => if s = "" then dflt else s

/-- One entry of the configuration's files mapping: optional per-file
delimiter overrides (part_000 line 111, part_001 line 159). -/
structure FileCfg where
  openDelimiter : Option String
  closeDelimiter : Option String
deriving DecidableEq

/-- The JS lookup tplConfig.files[fileName] or-else the empty object: an
absent entry reads as an entry with both overrides undefined. -/
def lookupCfg : List (String × FileCfg) → String → FileCfg
  | [], _ => ⟨none, none⟩
  | (k, c) :: rest, key => if k = key then c else lookupCfg rest key

/-- Node's path.basename for slash-separated paths without trailing
separators: the characters after the last slash. -/
def basename (p : String) : String :=
  String.mk ((p.toList.reverse.takeWhile (fun c => c ≠ '/')).reverse)

/-- Node's path.dirname for slash-separated paths without trailing
separators: the characters before the last slash, a dot when there is no
slash. -/
def dirname (p : String) : String :=
  match p.toList.reverse.dropWhile (fun c => c ≠ '/') with
  | [] => "."
  | _ :: tailRev => String.mk tailRev.reverse

/-- Node's path.extname: the suffix of the basename from its last dot, empty
when the basename has no dot or when its only dot is the leading one. -/
def extname (p : String) : String :=
  let rev := (basename p).toList.reverse
  match rev.dropWhile (fun c => c ≠ '.') with
  | [] => ""
  | _ :: restRev =>
    if restRev = [] then ""
    else String.mk ('.' :: (rev.takeWhile (fun c => c ≠ '.')).reverse)

/-- Global delimiter resolution of part_000 lines 64-80 and part_001 lines
28-92: the CLI flag or-else the compiled-in default is computed first, then a
truthy value from the configuration document overwrites it. -/
def resolveGlobalDelim (flag : Option String) (cfgVal : Option String) (dflt : String) : String :=
  let fromFlag := jsOr flag dflt
  match cfgVal with
  | none => fromFlag
  | some c => if c = "" then fromFlag else c

/-- Delimiter resolution inside renderTemplate (part_000 lines 110-113,
part_001 lines 158-162): the per-file override from the files mapping, looked
up by the template's base filename, or-else the global pair handed in by the
caller. In part_001 the extra or-else onto the module globals is identity,
since every call site passes those globals. -/
def resolveRenderDelims (files : List (String × FileCfg)) (srcPath gOpen gClose : String) :
    String × String :=
  let fc := lookupCfg files (basename srcPath)
  (jsOr fc.openDelimiter gOpen, jsOr fc.closeDelimiter gClose)

/-- The delimiter resolution the specification describes, written from its
words for comparison with the code: the per-file entry takes precedence over
the global pair, which takes precedence over the compiled-in default (the
global arguments here are already flag-or-default resolved). -/
def claimedDelimResolution (files : List (String × FileCfg)) (fileName gOpen gClose : String) :
    String × String :=
  let fc := lookupCfg files fileName
  (jsOr fc.openDelimiter gOpen, jsOr fc.closeDelimiter gClose)

/-- The side-loaded configuration document of the merged CLI: the files
mapping and the optional global delimiter pair under options.delimiters. -/
structure TplConfig where
  files : List (String × FileCfg)
  optOpen : Option String
  optClose : Option String

/-- The delimiter options the merged CLI's batch mode passes to the renderer:
part_000 line 144 calls Mark.up(tpl, ctx) with no options argument at all,
whatever the loaded configuration holds. -/
def mergedBatchOpts (_cfg : TplConfig) (_src : String) : Option (String × String) :=
  none

/-- Modelled from the spec: the external Markup renderer (markup.js /
templator-js, absent from the sources) falls back to its compiled-in default
delimiter pair, double open braces and double close braces, when a render
call passes no delimiter options. -/
def effectiveDelims (opts : Option (String × String)) : String × String :=
  opts.getD ("\x7b\x7b", "\x7d\x7d")

/-- The delimiter pair a merged-CLI batch render actually uses: the effective
pair of the optionless Mark.up call of part_000 line 144. -/
def mergedBatchDelims (cfg : TplConfig) (src : String) : String × String :=
  effectiveDelims (mergedBatchOpts cfg src)

/-- A configuration document giving page.tpl a per-file delimiter override,
as in the specification's worked example. -/
def pageCfg : TplConfig :=
  ⟨[("page.tpl", ⟨some "<%", some "%>"⟩)], none, none⟩

/-- An observable side effect of one CLI run, in program order. -/
inductive Effect where
  | writeFile (p : String)
  | writeStdout
  | mkdirp (p : String)
  | logOut (s : String)
  | logErr (s : String)
deriving DecidableEq

/-- Effects and success flag of part_001's renderTemplate (lines 156-194):
read the template, log, render, ensure the output directory, write the
output file, log again; any throw is caught and turns into a false return
after an error log. The target is always treated as a file path: the
function has no branch for a stdout sentinel. The writeOk flag covers the
directory creation and the file write together. -/
def renderTemplateEnh (readOk renderOk writeOk : Bool) (src out : String) :
    List Effect × Bool :=
  if !readOk then ([Effect.logErr src], false)
  else if !renderOk then ([Effect.logOut src, Effect.logErr src], false)
  else if !writeOk then
    ([Effect.logOut src, Effect.mkdirp (dirname out), Effect.logErr src], false)
  else
    ([Effect.logOut src, Effect.mkdirp (dirname out), Effect.writeFile out,
      Effect.logOut out], true)

/-- Effects and success flag of part_000's renderTemplate (lines 109-130):
as the enhanced version, except that when the target equals the sentinel
string stdout the result goes to standard output and no file is touched. -/
def renderTemplateMerged (readOk renderOk writeOk : Bool) (src out : String) :
    List Effect × Bool :=
  if !readOk then ([Effect.logErr src], false)
  else if !renderOk then ([Effect.logOut src, Effect.logErr src], false)
  else if out = "stdout" then ([Effect.logOut src, Effect.writeStdout], true)
  else if !writeOk then
    ([Effect.logOut src, Effect.mkdirp (dirname out), Effect.logErr src], false)
  else
    ([Effect.logOut src, Effect.mkdirp (dirname out), Effect.writeFile out,
      Effect.logOut out], true)

/-- Effects of part_001's single-file mode (lines 232-245): renderTemplate is
called with the output path or the string stdout as target, its result is
discarded, and when no output path was given the template is read and
rendered a second time and written to standard output (a throw there is
uncaught, so nothing further is emitted). -/
def enhancedSingleFile (outPath : Option String) (readOk renderOk writeOk : Bool)
    (src : String) : List Effect :=
  let target := outPath.getD "stdout"
  let fx := (renderTemplateEnh readOk renderOk writeOk src target).1
  match outPath with
  | some _ => fx
  | none => fx ++ (if readOk && renderOk then [Effect.writeStdout] else [])

/-- The merged CLI's destination parameter after argument parsing: minimist
is configured with default destination generated (part_000 lines 28-31), so
an absent flag reads as the string generated, while an explicitly passed
value, even the empty string, is kept as given. -/
def mergedDestination (destFlag : Option String) : String :=
  destFlag.getD "generated"

/-- Effects of part_000's single-file mode (lines 190-193): the target is
parameters.destination or-else parameters.outputDir or-else the sentinel
stdout, handed to its renderTemplate. The destination carries minimist's
default, so with no flags the target is the file generated and the stdout
sentinel is reached only when the destination resolves falsy (an explicitly
empty flag) with no outputDir either. -/
def mergedSingleFile (destFlag outputDirFlag : Option String)
    (readOk renderOk writeOk : Bool) (src : String) : List Effect :=
  let outFile := jsOr (some (mergedDestination destFlag)) (jsOr outputDirFlag "stdout")
  (renderTemplateMerged readOk renderOk writeOk src outFile).1

/-- Output effects of templator.js lines 83-93, reached only after a
successful render: with an output path the result is written to that file
(error log on failure), without one it is streamed to standard output. -/
def simpleOutput (outPath : Option String) (writeOk : Bool) : List Effect :=
  match outPath with
  | some p => if writeOk then [Effect.writeFile p, Effect.logOut p] else [Effect.logErr p]
  | none => [Effect.writeStdout]

/-- One run of templator.js described by which of its operations succeed. -/
structure SimpleRun where
  hasInfoPath : Bool
  hasTemplatePath : Bool
  ctxParseOk : Bool
  tplReadOk : Bool
  renderOk : Bool
  hasOutPath : Bool
  writeOk : Bool

/-- Exit code of templator.js: usage 1 (lines 30-33), context parse 2
(lines 36-50), template read 3 (lines 52-59), render 4 (lines 61-80),
output write 5 (lines 83-90), else 0. -/
def simpleExitCode (r : SimpleRun) : Nat :=
  if !(r.hasInfoPath && r.hasTemplatePath) then 1
  else if !r.ctxParseOk then 2
  else if !r.tplReadOk then 3
  else if !r.renderOk then 4
  else if r.hasOutPath && !r.writeOk then 5
  else 0

/-- One run of part_001 described by which of its operations succeed. The
last three flags describe the renderTemplate call of single-file mode. -/
structure EnhancedRun where
  argsOk : Bool
  configGiven : Bool
  configLoadOk : Bool
  ctxParseOk : Bool
  directoryMode : Bool
  dirListOk : Bool
  outPathGiven : Bool
  tplReadOk : Bool
  renderOk : Bool
  writeOk : Bool

/-- Exit code of part_001: usage 1 (lines 51-59), config load 2 (lines
63-91), context parse 3 (lines 94-151), directory-mode file-system failure 4
(lines 199-231). In single-file mode renderTemplate catches its own read,
render and write failures and returns false, which line 234 discards, so the
run exits 0; only when no output path was given does the second, uncovered
read-and-render of lines 237-245 abort the process on failure with Node's
uncaught-exception status 1. The writeOk flag never reaches the exit code. -/
def enhancedExitCode (r : EnhancedRun) : Nat :=
  if !r.argsOk then 1
  else if r.configGiven && !r.configLoadOk then 2
  else if !r.ctxParseOk then 3
  else if r.directoryMode then (if r.dirListOk then 0 else 4)
  else if !r.outPathGiven && !(r.tplReadOk && r.renderOk) then 1
  else 0

/-- One run of part_000 described by which of its operations succeed. The
last three flags describe the renderTemplate call of single-file mode. -/
structure MergedRun where
  configGiven : Bool
  configLoadOk : Bool
  helpFlag : Bool
  ctxOk : Bool
  srcExists : Bool
  directoryMode : Bool
  batchOk : Bool
  singleReadOk : Bool
  singleRenderOk : Bool
  singleWriteOk : Bool

/-- Exit code of part_000: config load 2 (lines 66-79); help, context
failure and missing source all 1 (lines 170-180); a throw out of generateDir
in batch mode is uncaught, Node status 1 (lines 183-189). In single-file
mode line 193 discards renderTemplate's false return, so the run exits 0
whatever the last three flags say. -/
def mergedExitCode (r : MergedRun) : Nat :=
  if r.configGiven && !r.configLoadOk then 2
  else if r.helpFlag then 1
  else if !r.ctxOk then 1
  else if !r.srcExists then 1
  else if r.directoryMode then (if r.batchOk then 0 else 1)
  else 0

/-- One directory entry seen by part_001's batch loop: its name, whether it
is a regular file, and whether its renderTemplate call succeeds. -/
structure DirEntry where
  name : String
  isFile : Bool
  renderOk : Bool

/-- The batch loop of part_001 lines 204-225: non-files are skipped, every
file is handed to renderTemplate in order, and a false return only leaves
the success counter unchanged. Returns the attempted files with their
outcomes, and the success count reported at line 227. -/
def enhancedBatch : List DirEntry → List (String × Bool) × Nat
  | [] => ([], 0)
  | e :: rest =>
    if e.isFile then
      ((e.name, e.renderOk) :: (enhancedBatch rest).1,
        (if e.renderOk then 1 else 0) + (enhancedBatch rest).2)
    else enhancedBatch rest

/-- A source tree entry for part_000's batch mode: a file carries whether
its processTemplateFile call succeeds. -/
inductive FsTree where
  | file (name : String) (ok : Bool)
  | dir (name : String) (children : List FsTree)

/-- The recursive walk of part_000's generateDir (lines 154-167): entries in
order, directories recursed into, files handed to processTemplateFile. That
call site has no try-catch, so the first failing file throws out of the
whole walk; the result is the processed file names, or the name of the file
whose failure aborted the run. -/
def mergedGenerateDir : List FsTree → Except String (List String)
  | [] => Except.ok []
  | FsTree.file n ok :: ts =>
    if ok then
      match mergedGenerateDir ts with
      | Except.ok ns => Except.ok (n :: ns)
      | Except.error e => Except.error e
    else Except.error n
  | FsTree.dir _ cs :: ts =>
    match mergedGenerateDir cs with
    | Except.ok ns =>
      match mergedGenerateDir ts with
      | Except.ok ms => Except.ok (ns ++ ms)
      | Except.error e => Except.error e
    | Except.error e => Except.error e

/-- The action part_000's processTemplateFile (lines 140-152) takes for one
file, given the already rendered output: a file whose extension is .script
has its rendered output executed as a shell command in the destination's
directory, anything else is written to the destination with the source
file's mode. -/
inductive BatchAction where
  | shellExec (cmd : String) (cwd : String)
  | write (dest : String) (content : String) (mode : Nat)

/-- part_000 lines 140-152: route one batch file by its extension. -/
def processTemplateFile (src dest rendered : String) (mode : Nat) : BatchAction :=
  if extname src = ".script" then BatchAction.shellExec rendered (dirname dest)
  else BatchAction.write dest rendered mode

/-- Reading back the key just set yields exactly the new value. -/
theorem lookupField_setField_self (fields : List (String × JValue)) (k : String) (v : JValue) :
    lookupField (setField fields k v) k = some v := by
  induction fields with
  | nil => simp [setField, lookupField]
  | cons p rest ih =>
    obtain ⟨k0, w⟩ := p
    by_cases h : k0 = k
    · simp [setField, lookupField, h]
    · simp [setField, lookupField, h, ih]

/-- Setting one key leaves every other key's lookup unchanged. -/
theorem lookupField_setField_other (fields : List (String × JValue)) (k k2 : String)
    (v : JValue) (h : k2 ≠ k) :
    lookupField (setField fields k v) k2 = lookupField fields k2 := by
  induction fields with
  | nil => simp [setField, lookupField, Ne.symm h]
  | cons p rest ih =>
    obtain ⟨k0, w⟩ := p
    by_cases h0 : k0 = k
    · subst h0
      simp [setField, lookupField, Ne.symm h]
    · simp [setField, lookupField, h0, ih]

/-- All regular files of the listing are attempted, in order, with their
individual outcomes recorded. -/
theorem enhancedBatch_files (entries : List DirEntry) :
    (enhancedBatch entries).1 =
      (entries.filter fun e => e.isFile).map fun e => (e.name, e.renderOk) := by
  induction entries with
  | nil => rfl
  | cons e rest ih =>
    cases hf : e.isFile <;> simp [enhancedBatch, List.filter_cons, hf, ih]

/-- The reported success count is the number of regular files whose render
succeeded. -/
theorem enhancedBatch_count (entries : List DirEntry) :
    (enhancedBatch entries).2 =
      ((entries.filter fun e => e.isFile).filter fun e => e.renderOk).length := by
  induction entries with
  | nil => rfl
  | cons e rest ih =>
    cases hf : e.isFile <;> cases hr : e.renderOk <;>
      simp [enhancedBatch, List.filter_cons, hf, hr, ih, Nat.add_comm]

/-- A failing file at the front of the walk aborts the whole batch. -/
theorem mergedGenerateDir_abort (name : String) (rest : List FsTree) :
    mergedGenerateDir (FsTree.file name false :: rest) = Except.error name := by
  simp [mergedGenerateDir]

/-- C2: a context document whose top-level mapping carries a non-array items
value reaches the renderer with items replaced by the one-element array of
that value, every other field reading unchanged (templator.js lines 42-46,
part_001 lines 142-147). -/
theorem items_wrap_preserves (fields : List (String × JValue)) (v : JValue) (k : String)
    (hv : lookupField fields "items" = some v) (hna : ∀ xs, v ≠ JValue.arr xs)
    (hk : k ≠ "items") :
    lookupField (normalizeItems fields) "items" = some (JValue.arr [v]) ∧
    lookupField (normalizeItems fields) k = lookupField fields k := by
  have hnorm : normalizeItems fields = setField fields "items" (JValue.arr [v]) := by
    unfold normalizeItems
    rw [hv]
    cases v with
    | arr xs => exact absurd rfl (hna xs)
    | null => rfl
    | bool b => rfl
    | num n => rfl
    | str s => rfl
    | obj fs => rfl
  constructor
  · rw [hnorm]
    exact lookupField_setField_self fields "items" (JValue.arr [v])
  · rw [hnorm]
    exact lookupField_setField_other fields "items" k (JValue.arr [v]) hk

/-- C2 witness: wrapping a concrete string-valued items field. -/
theorem items_wrap_preserves_witness :
    lookupField (normalizeItems [("items", JValue.str "x"), ("name", JValue.str "y")])
      "items" = some (JValue.arr [JValue.str "x"]) ∧
    lookupField (normalizeItems [("items", JValue.str "x"), ("name", JValue.str "y")])
      "name" = lookupField [("items", JValue.str "x"), ("name", JValue.str "y")] "name" :=
  items_wrap_preserves [("items", JValue.str "x"), ("name", JValue.str "y")]
    (JValue.str "x") "name" rfl (fun xs h => JValue.noConfusion h) (by decide)

/-- C8: after context loading, a context with no items field gets the empty
array, and for every context the items field ends up an array
(templator.js lines 42-46, part_001 lines 142-147). -/
theorem items_always_array (fields fields2 : List (String × JValue))
    (h : lookupField fields "items" = none) :
    lookupField (normalizeItems fields) "items" = some (JValue.arr []) ∧
    itemsIsArray (normalizeItems fields2) = true := by
  constructor
  · unfold normalizeItems
    rw [h]
    exact lookupField_setField_self fields "items" (JValue.arr [])
  · unfold normalizeItems
    cases hl : lookupField fields2 "items" with
    | none => simp [itemsIsArray, lookupField_setField_self]
    | some v =>
      cases v with
      | arr xs => simp [itemsIsArray, hl]
      | null => simp [itemsIsArray, lookupField_setField_self]
      | bool b => simp [itemsIsArray, lookupField_setField_self]
      | num n => simp [itemsIsArray, lookupField_setField_self]
      | str s => simp [itemsIsArray, lookupField_setField_self]
      | obj fs => simp [itemsIsArray, lookupField_setField_self]

/-- C8 witness: a context without items gets the empty array, and a numeric
items value still ends up an array. -/
theorem items_always_array_witness :
    lookupField (normalizeItems [("name", JValue.str "y")]) "items" =
      some (JValue.arr []) ∧
    itemsIsArray (normalizeItems [("items", JValue.num 3)]) = true :=
  items_always_array [("name", JValue.str "y")] [("items", JValue.num 3)] rfl

/-- C10: when a CLI delimiter flag and a config-document delimiter are both
supplied, the config value is applied second and wins (part_000 lines 64-80,
part_001 lines 79-92). -/
theorem config_overrides_flag (f c d : String) (hc : c ≠ "") :
    resolveGlobalDelim (some f) (some c) d = c := by
  simp [resolveGlobalDelim, jsOr, hc]

/-- C10 witness: the config pair beats the flag pair. -/
theorem config_overrides_flag_witness :
    resolveGlobalDelim (some "<%") (some "[[") "\x7b\x7b" = "[[" :=
  config_overrides_flag "<%" "[[" "\x7b\x7b" (by decide)

/-- C1 (amended): for every file rendered through renderTemplate, a set
per-file override wins, an absent entry falls back to the global pair, and
the global pair itself is flag-or-config over the compiled-in default. -/
theorem render_delim_precedence (files1 files2 : List (String × FileCfg))
    (src1 src2 gO gC o c d f : String)
    (h1 : lookupCfg files1 (basename src1) = ⟨some o, some c⟩)
    (ho : o ≠ "") (hc : c ≠ "")
    (h2 : lookupCfg files2 (basename src2) = ⟨none, none⟩)
    (hf : f ≠ "") :
    resolveRenderDelims files1 src1 gO gC = (o, c) ∧
    resolveRenderDelims files2 src2 gO gC = (gO, gC) ∧
    resolveGlobalDelim none none d = d ∧
    resolveGlobalDelim (some f) none d = f ∧
    resolveGlobalDelim none (some f) d = f := by
  refine ⟨?_, ?_, rfl, ?_, ?_⟩
  · simp [resolveRenderDelims, h1, jsOr, ho, hc]
  · simp [resolveRenderDelims, h2, jsOr]
  · simp [resolveGlobalDelim, jsOr, hf]
  · simp [resolveGlobalDelim, jsOr, hf]

/-- C1 witness: page.tpl with an override renders with its pair, a file with
no entry with the global pair, and the global resolution honours flag and
config over the default. -/
theorem render_delim_precedence_witness :
    resolveRenderDelims [("page.tpl", ⟨some "<%", some "%>"⟩)] "x/page.tpl"
      "\x7b\x7b" "\x7d\x7d" = ("<%", "%>") ∧
    resolveRenderDelims [] "x/other.tpl" "\x7b\x7b" "\x7d\x7d" =
      ("\x7b\x7b", "\x7d\x7d") ∧
    resolveGlobalDelim none none "\x7b\x7b" = "\x7b\x7b" ∧
    resolveGlobalDelim (some "[[") none "\x7b\x7b" = "[[" ∧
    resolveGlobalDelim none (some "[[") "\x7b\x7b" = "[[" :=
  render_delim_precedence [("page.tpl", ⟨some "<%", some "%>"⟩)] [] "x/page.tpl"
    "x/other.tpl" "\x7b\x7b" "\x7d\x7d" "<%" "%>" "\x7b\x7b" "[["
    (by decide) (by decide) (by decide) rfl (by decide)

/-- C1 counterexample: with a per-file override for page.tpl in force, the
merged CLI's batch mode still calls the renderer with no delimiter options,
so the pair actually used is the compiled-in default, not the pair the
claimed precedence resolves to. -/
theorem batch_mode_ignores_page_override :
    mergedBatchOpts pageCfg "tpl/page.tpl" = none ∧
    mergedBatchDelims pageCfg "tpl/page.tpl" = ("\x7b\x7b", "\x7d\x7d") ∧
    claimedDelimResolution pageCfg.files (basename "tpl/page.tpl")
      "\x7b\x7b" "\x7d\x7d" = ("<%", "%>") ∧
    mergedBatchDelims pageCfg "tpl/page.tpl" ≠
      claimedDelimResolution pageCfg.files (basename "tpl/page.tpl")
        "\x7b\x7b" "\x7d\x7d" := by
  refine ⟨rfl, rfl, by decide, by decide⟩

/-- C9: the merged CLI's batch mode passes no delimiter options to the
renderer whatever the configuration says, so every batch file is rendered
with the compiled-in default pair (part_000 line 144). -/
theorem batch_ignores_delims (cfg : TplConfig) (src : String) :
    mergedBatchOpts cfg src = none ∧
    mergedBatchDelims cfg src = ("\x7b\x7b", "\x7d\x7d") :=
  ⟨rfl, rfl⟩

/-- C3 (amended): the simple CLI exits 0 on success and with distinct codes
2, 3, 4, 5 for context parse, template read, render and output write
failures; the enhanced CLI exits 2 on config load failure and 3 on context
parse failure, but template read, render and write failures inside
renderTemplate are caught and, with an output path given, the run exits 0;
the merged CLI exits 2 on config load failure and likewise exits 0 on a
failed single-file render. -/
theorem exit_codes_by_category :
    ∀ a b c d e f g : Bool,
      simpleExitCode ⟨true, true, false, a, b, c, d⟩ = 2 ∧
      simpleExitCode ⟨true, true, true, false, b, c, d⟩ = 3 ∧
      simpleExitCode ⟨true, true, true, true, false, c, d⟩ = 4 ∧
      simpleExitCode ⟨true, true, true, true, true, true, false⟩ = 5 ∧
      simpleExitCode ⟨true, true, true, true, true, c, true⟩ = 0 ∧
      enhancedExitCode ⟨true, true, false, a, b, c, d, e, f, g⟩ = 2 ∧
      enhancedExitCode ⟨true, a, true, false, b, c, d, e, f, g⟩ = 3 ∧
      enhancedExitCode ⟨true, a, true, true, false, b, true, e, f, g⟩ = 0 ∧
      enhancedExitCode ⟨true, a, true, true, true, true, d, e, f, g⟩ = 0 ∧
      mergedExitCode ⟨true, false, a, b, c, d, e, f, g, a⟩ = 2 ∧
      mergedExitCode ⟨a, true, false, true, true, false, b, c, false, e⟩ = 0 := by
  decide

/-- C3 counterexample: an enhanced-CLI single-file run whose render fails
(every earlier stage succeeding, an output path given) exits with code 0,
not a non-zero render-failure code. -/
theorem render_failure_exits_zero :
    EnhancedRun.renderOk ⟨true, true, true, true, false, true, true, true, false, true⟩ =
      false ∧
    enhancedExitCode ⟨true, true, true, true, false, true, true, true, false, true⟩ = 0 :=
  ⟨rfl, rfl⟩

/-- C4 (amended): in the enhanced CLI's directory mode every regular file is
attempted in order, a failure only skips that file, and the number of
successes is reported; in the merged CLI's batch mode the first failing file
throws out of the whole walk and the remaining files are never processed. -/
theorem batch_failure_tolerance (entries : List DirEntry) (name : String)
    (rest : List FsTree) :
    (enhancedBatch entries).1 =
      (entries.filter fun e => e.isFile).map (fun e => (e.name, e.renderOk)) ∧
    (enhancedBatch entries).2 =
      ((entries.filter fun e => e.isFile).filter fun e => e.renderOk).length ∧
    mergedGenerateDir (FsTree.file name false :: rest) = Except.error name :=
  ⟨enhancedBatch_files entries, enhancedBatch_count entries,
    mergedGenerateDir_abort name rest⟩

/-- C4 counterexample: in the merged CLI's batch walk, one failing file
aborts the run before the next file, while the same listing with that file
succeeding processes both. -/
theorem merged_batch_aborts_on_failure :
    mergedGenerateDir [FsTree.file "a.txt" false, FsTree.file "b.txt" true] =
      Except.error "a.txt" ∧
    mergedGenerateDir [FsTree.file "a.txt" true, FsTree.file "b.txt" true] =
      Except.ok ["a.txt", "b.txt"] := by
  constructor <;> simp [mergedGenerateDir]

/-- C5 (amended): the simple CLI streams to standard output with no file
when no output path is given, and writes the given file otherwise. The
enhanced CLI, given no output path, writes a file literally named stdout
(its renderTemplate has no sentinel branch) and then also streams a second
render to standard output; given an output path, it writes that file. The
merged CLI, given neither destination nor outputDir flag, takes minimist's
default destination and writes a file named generated with nothing on
standard output; a non-empty explicit destination other than the literal
string stdout is written as a file, and the stdout sentinel is reached only
when the destination resolves falsy, as with an explicitly empty flag. -/
theorem single_file_output_routing (src p d : String) (hd : d ≠ "") (hds : d ≠ "stdout") :
    simpleOutput none true = [Effect.writeStdout] ∧
    simpleOutput (some p) true = [Effect.writeFile p, Effect.logOut p] ∧
    enhancedSingleFile none true true true src =
      [Effect.logOut src, Effect.mkdirp ".", Effect.writeFile "stdout",
        Effect.logOut "stdout", Effect.writeStdout] ∧
    enhancedSingleFile (some p) true true true src =
      [Effect.logOut src, Effect.mkdirp (dirname p), Effect.writeFile p,
        Effect.logOut p] ∧
    mergedSingleFile none none true true true src =
      [Effect.logOut src, Effect.mkdirp ".", Effect.writeFile "generated",
        Effect.logOut "generated"] ∧
    Effect.writeStdout ∉ mergedSingleFile none none true true true src ∧
    mergedSingleFile (some d) none true true true src =
      [Effect.logOut src, Effect.mkdirp (dirname d), Effect.writeFile d,
        Effect.logOut d] ∧
    mergedSingleFile (some "") none true true true src =
      [Effect.logOut src, Effect.writeStdout] := by
  refine ⟨rfl, rfl, ?_, ?_, ?_, ?_, ?_, ?_⟩
  · simp [enhancedSingleFile, renderTemplateEnh, dirname]
  · simp [enhancedSingleFile, renderTemplateEnh]
  · simp [mergedSingleFile, mergedDestination, jsOr, renderTemplateMerged, dirname]
  · simp [mergedSingleFile, mergedDestination, jsOr, renderTemplateMerged, dirname]
  · simp [mergedSingleFile, mergedDestination, jsOr, renderTemplateMerged, hd, hds]
  · simp [mergedSingleFile, mergedDestination, jsOr, renderTemplateMerged]

/-- C5 witness: concrete routing for all three CLIs, with an explicit
non-empty, non-sentinel merged destination. -/
theorem single_file_output_routing_witness :
    simpleOutput none true = [Effect.writeStdout] ∧
    simpleOutput (some "out.txt") true =
      [Effect.writeFile "out.txt", Effect.logOut "out.txt"] ∧
    enhancedSingleFile none true true true "page.tpl" =
      [Effect.logOut "page.tpl", Effect.mkdirp ".", Effect.writeFile "stdout",
        Effect.logOut "stdout", Effect.writeStdout] ∧
    enhancedSingleFile (some "out.txt") true true true "page.tpl" =
      [Effect.logOut "page.tpl", Effect.mkdirp (dirname "out.txt"),
        Effect.writeFile "out.txt", Effect.logOut "out.txt"] ∧
    mergedSingleFile none none true true true "page.tpl" =
      [Effect.logOut "page.tpl", Effect.mkdirp ".", Effect.writeFile "generated",
        Effect.logOut "generated"] ∧
    Effect.writeStdout ∉ mergedSingleFile none none true true true "page.tpl" ∧
    mergedSingleFile (some "dest.txt") none true true true "page.tpl" =
      [Effect.logOut "page.tpl", Effect.mkdirp (dirname "dest.txt"),
        Effect.writeFile "dest.txt", Effect.logOut "dest.txt"] ∧
    mergedSingleFile (some "") none true true true "page.tpl" =
      [Effect.logOut "page.tpl", Effect.writeStdout] :=
  single_file_output_routing "page.tpl" "out.txt" "dest.txt" (by decide) (by decide)

/-- C5 counterexample: with no output path given, the enhanced CLI creates a
file named stdout, and the merged CLI writes a file named generated, the
minimist default destination, streaming nothing to standard output. -/
theorem no_output_path_still_writes_files :
    Effect.writeFile "stdout" ∈ enhancedSingleFile none true true true "page.tpl" ∧
    mergedSingleFile none none true true true "page.tpl" =
      [Effect.logOut "page.tpl", Effect.mkdirp ".", Effect.writeFile "generated",
        Effect.logOut "generated"] ∧
    Effect.writeStdout ∉ mergedSingleFile none none true true true "page.tpl" := by
  refine ⟨by decide, by decide, by decide⟩

/-- C6: when the render call fails, neither renderTemplate variant emits any
file write (the write comes only after a successful render), and on full
success the write follows the render in the effect order (part_000 lines
114-129, part_001 lines 164-193). -/
theorem render_failure_writes_nothing (readOk writeOk : Bool) (src out p : String) :
    Effect.writeFile p ∉ (renderTemplateEnh readOk false writeOk src out).1 ∧
    Effect.writeFile p ∉ (renderTemplateMerged readOk false writeOk src out).1 ∧
    (renderTemplateEnh true true true src out).1 =
      [Effect.logOut src, Effect.mkdirp (dirname out), Effect.writeFile out,
        Effect.logOut out] := by
  refine ⟨?_, ?_, rfl⟩
  · cases readOk <;> simp [renderTemplateEnh]
  · cases readOk <;> simp [renderTemplateMerged]

/-- C7: in the merged CLI's batch mode a file whose extension is .script has
its rendered output executed as a shell command in the destination's
directory, and a file with any other extension is written to the destination
with the source file's mode (part_000 lines 140-152). -/
theorem script_files_executed (src1 src2 dest1 dest2 r1 r2 : String) (m1 m2 : Nat)
    (h1 : extname src1 = ".script") (h2 : extname src2 ≠ ".script") :
    processTemplateFile src1 dest1 r1 m1 = BatchAction.shellExec r1 (dirname dest1) ∧
    processTemplateFile src2 dest2 r2 m2 = BatchAction.write dest2 r2 m2 := by
  constructor
  · simp [processTemplateFile, h1]
  · simp [processTemplateFile, h2]

/-- C7 witness: a .script file is executed in the destination directory, a
markdown file is written with its mode. -/
theorem script_files_executed_witness :
    processTemplateFile "tpl/deploy.script" "out/deploy.script" "echo hi" 493 =
      BatchAction.shellExec "echo hi" (dirname "out/deploy.script") ∧
    processTemplateFile "tpl/readme.md" "out/readme.md" "hello" 420 =
      BatchAction.write "out/readme.md" "hello" 420 :=
  script_files_executed "tpl/deploy.script" "tpl/readme.md" "out/deploy.script"
    "out/readme.md" "echo hi" "hello" 493 420 (by decide) (by decide)

end Templator
